import Mathlib

set_option maxHeartbeats 1000000

/-!
Verification of the connection registry and role-based message router of the
realtime translation relay (src/server.py, class TranslationServer).

Connections are opaque handles (modelled as naturals).  The registry
`self.clients` is an insertion-ordered dictionary from connection to its
per-connection state dict, modelled as an association list.  The external
ML translation pipeline behind `OfflineTranslator.translate_to_english` /
`translate_from_english` is modelled as an oracle (`Translator`); the
router-level functions around it are embedded from the source.  Outbound
sends are collected into a list of (recipient, message) pairs; a send that
raises is modelled by the `fails` predicate (the source catches and logs
every send error individually).
-/

/-- Opaque connection handle (the identity of the Python websocket object). -/
abbrev Conn := Nat

/-- Per-connection registry entry: the dict created in
`TranslationServer.register_client` with keys
language / translation_enabled / role / session_id.
`session_id` is `Option String` because the source stores Python `None`
at registration time. -/
structure ClientInfo where
  language : String
  translation_enabled : Bool
  role : String
  session_id : Option String
  deriving Repr, DecidableEq

/-- The registry `self.clients`: insertion-ordered dict from connection to state. -/
abbrev Registry := List (Conn × ClientInfo)

/-- Python dict assignment `d[k] = v`: replace in place when the key is
present, append otherwise. -/
def dictSet (r : Registry) (c : Conn) (v : ClientInfo) : Registry :=
  if (r.lookup c).isSome then
    r.map (fun p => if p.1 = c then (c, v) else p)
  else
    r ++ [(c, v)]

/-- In-place field update of the entry stored for `c`
(Python `self.clients[ws][field] = ...`). -/
def updateEntry (r : Registry) (c : Conn) (f : ClientInfo → ClientInfo) : Registry :=
  r.map (fun p => if p.1 = c then (p.1, f p.2) else p)

/-- `TranslationServer.register_client`: inserts the default entry
language "es", translation_enabled True, role "traveler", session_id None. -/
def register_client (r : Registry) (c : Conn) : Registry :=
  dictSet r c ⟨"es", true, "traveler", none⟩

/-- `TranslationServer.unregister_client`: `if ws in self.clients: del self.clients[ws]`. -/
def unregister_client (r : Registry) (c : Conn) : Registry :=
  if (r.lookup c).isSome then r.filter (fun p => !(p.1 == c)) else r

/-- The external translation capability (`OfflineTranslator`'s two
translation methods, whose bodies run the ML pipeline and are outside the
router); modelled as an oracle returning arbitrary strings.  The source
catches every exception inside these methods and returns an error string,
so they are total. -/
structure Translator where
  translate_to_english : String → String → String
  translate_from_english : String → String → String

/-- `OfflineTranslator.supported_languages = list(TRANSLATION_MODELS.keys())`. -/
def supported_languages : List String := ["es", "fr", "de", "it", "pt"]

/-- Python `repr` of a list of strings, as produced by the f-string
`f"... {self.translator.supported_languages}"`. -/
def pyListRepr (l : List String) : String :=
  "[" ++ String.intercalate ", " (l.map (fun s => "\x27" ++ s ++ "\x27")) ++ "]"

/-- The sentinel produced for an unsupported language:
`f"Language '{lang}' not supported offline. Supported: {supported_languages}"`. -/
def notSupportedMsg (lang : String) : String :=
  "Language \x27" ++ lang ++ "\x27 not supported offline. Supported: " ++
    pyListRepr supported_languages

/-- `TranslationServer.translate_traveler_to_assistant` (src/server.py 218-232). -/
def translate_traveler_to_assistant (tr : Translator)
    (text traveler_language : String) : String :=
  if traveler_language ∉ supported_languages then
    notSupportedMsg traveler_language
  else if traveler_language = "en" then
    text
  else
    tr.translate_to_english text traveler_language

/-- `TranslationServer.translate_assistant_to_traveler` (src/server.py 234-250). -/
def translate_assistant_to_traveler (tr : Translator)
    (text traveler_language : String) : String :=
  if traveler_language ∉ supported_languages then
    notSupportedMsg traveler_language
  else if traveler_language = "en" then
    text
  else
    tr.translate_from_english text traveler_language

/-- An inbound JSON envelope; absent fields are `none`
(`data.get(key, default)` becomes `Option.getD`). -/
structure InMessage where
  type : String
  role : Option String
  session_id : Option String
  language : Option String
  text : Option String
  traveler_language : Option String
  deriving Repr, DecidableEq

/-- A `transcription` envelope carrying `text` and (optionally) `traveler_language`. -/
def transcriptionMsg (text : String) (tl : Option String) : InMessage :=
  ⟨"transcription", none, none, none, some text, tl⟩

/-- A `set_role` envelope. -/
def setRoleMsg (role sid lang : Option String) : InMessage :=
  ⟨"set_role", role, sid, lang, none, none⟩

/-- A `start_recording` envelope. -/
def startRecordingMsg (lang : Option String) : InMessage :=
  ⟨"start_recording", none, none, lang, none, none⟩

/-- Outbound envelopes built by `process_message`. -/
inductive OutMessage where
  | traveler_message (original translated traveler_language timestamp : String)
  | transcription_sent (original translated_for_assistant timestamp : String)
  | assistant_response (original translated traveler_language timestamp : String)
  | response_sent (original translated_for_traveler timestamp : String)
  deriving Repr, DecidableEq

/-- `TranslationServer.broadcast_to_assistants` (src/server.py 384-392):
scan the registry; each matching recipient gets its own send inside its own
try/except, so a failing send (`fails p.1 = true`) is dropped without
affecting the rest of the scan. -/
def broadcast_to_assistants (r : Registry) (fails : Conn → Bool)
    (session_id : Option String) (m : OutMessage) : List (Conn × OutMessage) :=
  (r.filter (fun p => p.2.role == "assistant" && p.2.session_id == session_id)).filterMap
    (fun p => if fails p.1 then none else some (p.1, m))

/-- `TranslationServer.broadcast_to_travelers` (src/server.py 394-402). -/
def broadcast_to_travelers (r : Registry) (fails : Conn → Bool)
    (session_id : Option String) (m : OutMessage) : List (Conn × OutMessage) :=
  (r.filter (fun p => p.2.role == "traveler" && p.2.session_id == session_id)).filterMap
    (fun p => if fails p.1 then none else some (p.1, m))

/-- `TranslationServer.process_message` (src/server.py 275-382): returns the
new registry together with the list of (recipient, envelope) sends, in send
order (broadcast recipients in registry order, then the direct response to
the sender).  `now` is the server-generated timestamp.  In the transcription
branch with a role that is neither "traveler" nor "assistant", the local
`response` variable is never assigned, so `websocket.send(json.dumps(response))`
raises UnboundLocalError, which the surrounding try/except swallows:
no broadcast and no acknowledgement are sent and the registry is unchanged. -/
def process_message (tr : Translator) (fails : Conn → Bool) (now : String)
    (r : Registry) (sender : Conn) (data : InMessage) :
    Registry × List (Conn × OutMessage) :=
  if data.type = "set_role" then
    let role := data.role.getD "traveler"
    let sid := data.session_id.getD "default"
    let r2 := if (r.lookup sender).isSome then
        updateEntry r sender
          (fun i => ⟨data.language.getD "es", i.translation_enabled, role, some sid⟩)
      else r
    (r2, [])
  else if data.type = "transcription" then
    let original_text := data.text.getD ""
    let client_info := r.lookup sender
    let role := (client_info.map ClientInfo.role).getD "traveler"
    let language := (client_info.map ClientInfo.language).getD "es"
    let session_id : Option String :=
      match client_info with
      | some i => i.session_id
      | none => some "default"
    if role = "traveler" then
      let translated_text := translate_traveler_to_assistant tr original_text language
      let bcast := broadcast_to_assistants r fails session_id
        (OutMessage.traveler_message original_text translated_text language now)
      (r, bcast ++
        (if fails sender then []
         else [(sender, OutMessage.transcription_sent original_text translated_text now)]))
    else if role = "assistant" then
      let traveler_language := data.traveler_language.getD "es"
      let translated_text := translate_assistant_to_traveler tr original_text traveler_language
      let bcast := broadcast_to_travelers r fails session_id
        (OutMessage.assistant_response original_text translated_text traveler_language now)
      (r, bcast ++
        (if fails sender then []
         else [(sender, OutMessage.response_sent original_text translated_text now)]))
    else
      (r, [])
  else if data.type = "start_recording" then
    let r2 := if (r.lookup sender).isSome then
        updateEntry r sender
          (fun i => ⟨data.language.getD "es", i.translation_enabled, i.role, i.session_id⟩)
      else r
    (r2, [])
  else
    (r, [])

/-- The fallback `MockTranslator` of `OfflineTranslator.load_model`
(and the `MockPipeline` of `_import_ml_libraries`): prepends
"[MOCK TRANSLATION] " to the input text in both directions. -/
def mockTranslator : Translator :=
  ⟨fun text _ => "[MOCK TRANSLATION] " ++ text,
   fun text _ => "[MOCK TRANSLATION] " ++ text⟩

/-- A traveler entry in session "S" (for concrete scenarios). -/
def travInfo : ClientInfo := ⟨"es", true, "traveler", some "S"⟩

/-- An assistant entry in session "S" (for concrete scenarios). -/
def asstInfo : ClientInfo := ⟨"en", true, "assistant", some "S"⟩

/-- A two-connection registry: traveler 0 and assistant 1, both in session "S". -/
def demoRegistry2 : Registry := [(0, travInfo), (1, asstInfo)]

/-- A three-connection registry: traveler 0 and assistants 1 and 2, all in session "S". -/
def demoRegistry3 : Registry := [(0, travInfo), (1, asstInfo), (2, asstInfo)]

/-- A sample broadcast envelope (for concrete scenarios). -/
def demoMsg : OutMessage := OutMessage.traveler_message "Hola" "Hi" "es" "12:00:00"

/-- A registry whose only connection set its role to "moderator" via `set_role`
(the server stores the client-supplied role string verbatim). -/
def moderatorRegistry : Registry :=
  (process_message mockTranslator (fun _ => false) "10:00:00" (register_client [] 0) 0
    (setRoleMsg (some "moderator") (some "S") (some "en"))).1
theorem lookup_cons_eq (k : Conn) (w : ClientInfo) (rest : Registry) :
    ((k, w) :: rest).lookup k = some w := by
  simp [List.lookup_cons]

theorem lookup_cons_ne (c k : Conn) (w : ClientInfo) (rest : Registry) (h : c ≠ k) :
    ((k, w) :: rest).lookup c = rest.lookup c := by
  simp [List.lookup_cons, beq_false_of_ne h]

theorem lookup_mem {r : Registry} {c : Conn} {v : ClientInfo}
    (h : r.lookup c = some v) : (c, v) ∈ r := by
  induction r with
  | nil => simp [List.lookup] at h
  | cons p rest ih =>
    obtain ⟨k, w⟩ := p
    by_cases hc : c = k
    · subst hc
      rw [lookup_cons_eq] at h
      simp at h
      simp [h]
    · rw [lookup_cons_ne c k w rest hc] at h
      exact List.mem_cons_of_mem _ (ih h)

theorem lookup_none_not_key {r : Registry} {c : Conn}
    (h : r.lookup c = none) : ∀ p ∈ r, p.1 ≠ c := by
  induction r with
  | nil => simp
  | cons p rest ih =>
    obtain ⟨k, w⟩ := p
    by_cases hc : c = k
    · subst hc
      rw [lookup_cons_eq] at h
      simp at h
    · rw [lookup_cons_ne c k w rest hc] at h
      intro q hq
      rcases List.mem_cons.mp hq with hq2 | hq2
      · simp [hq2]
        exact fun he => hc he.symm
      · exact ih h q hq2

theorem lookup_updateEntry_self (r : Registry) (c : Conn) (f : ClientInfo → ClientInfo) :
    (updateEntry r c f).lookup c = (r.lookup c).map f := by
  induction r with
  | nil => simp [updateEntry, List.lookup]
  | cons p rest ih =>
    obtain ⟨k, w⟩ := p
    unfold updateEntry at ih ⊢
    by_cases hc : k = c
    · subst hc
      simp [lookup_cons_eq]
    · simp only [List.map_cons, if_neg hc]
      rw [lookup_cons_ne c k w _ (fun he => hc he.symm),
        lookup_cons_ne c k w rest (fun he => hc he.symm)]
      exact ih

theorem lookup_updateEntry_ne (r : Registry) (c c2 : Conn) (f : ClientInfo → ClientInfo)
    (h : c2 ≠ c) : (updateEntry r c f).lookup c2 = r.lookup c2 := by
  induction r with
  | nil => simp [updateEntry]
  | cons p rest ih =>
    obtain ⟨k, w⟩ := p
    unfold updateEntry at ih ⊢
    by_cases hc : k = c
    · subst hc
      simp only [List.map_cons, if_pos, ite_true]
      rw [lookup_cons_ne c2 k (f w) _ h, lookup_cons_ne c2 k w rest h]
      exact ih
    · simp only [List.map_cons, if_neg hc]
      by_cases hc2 : c2 = k
      · subst hc2
        rw [lookup_cons_eq, lookup_cons_eq]
      · rw [lookup_cons_ne c2 k w _ hc2, lookup_cons_ne c2 k w rest hc2]
        exact ih

theorem lookup_dictSet_self (r : Registry) (c : Conn) (v : ClientInfo) :
    (dictSet r c v).lookup c = some v := by
  unfold dictSet
  by_cases h : (r.lookup c).isSome
  · rw [if_pos h]
    induction r with
    | nil => simp [List.lookup] at h
    | cons p rest ih =>
      obtain ⟨k, w⟩ := p
      by_cases hc : k = c
      · subst hc
        simp [lookup_cons_eq]
      · simp only [List.map_cons, if_neg hc]
        rw [lookup_cons_ne c k w rest (fun he => hc he.symm)] at h
        rw [lookup_cons_ne c k w _ (fun he => hc he.symm)]
        exact ih h
  · rw [if_neg h]
    induction r with
    | nil => rw [List.nil_append, lookup_cons_eq]
    | cons p rest ih =>
      obtain ⟨k, w⟩ := p
      by_cases hc : c = k
      · subst hc
        rw [lookup_cons_eq] at h
        simp at h
      · rw [lookup_cons_ne c k w rest hc] at h
        rw [List.cons_append, lookup_cons_ne c k w _ hc]
        exact ih h

theorem notSupportedMsg_ne_empty (lang : String) : notSupportedMsg lang ≠ "" := by
  intro he
  have hd := congrArg String.data he
  simp [notSupportedMsg, String.append] at hd

theorem translate_traveler_ne_empty (tr : Translator) (text lang : String)
    (h : tr.translate_to_english text lang ≠ "") :
    translate_traveler_to_assistant tr text lang ≠ "" := by
  unfold translate_traveler_to_assistant
  by_cases hsup : lang ∈ supported_languages
  · rw [if_neg (not_not_intro hsup)]
    by_cases hen : lang = "en"
    · exact absurd (hen ▸ hsup) (by decide)
    · rw [if_neg hen]
      exact h
  · rw [if_pos hsup]
    exact notSupportedMsg_ne_empty lang

theorem mem_unregister_ne (r : Registry) (c : Conn) :
    ∀ p ∈ unregister_client r c, p.1 ≠ c := by
  unfold unregister_client
  by_cases h : (r.lookup c).isSome
  · rw [if_pos h]
    intro p hp
    have := (List.mem_filter.mp hp).2
    simpa using this
  · rw [if_neg h]
    intro p hp
    exact lookup_none_not_key (Option.not_isSome_iff_eq_none.mp h) p hp

theorem mem_broadcast_to_assistants {r : Registry} {fails : Conn → Bool}
    {sid : Option String} {m : OutMessage} {c2 : Conn} {m2 : OutMessage}
    (h : (c2, m2) ∈ broadcast_to_assistants r fails sid m) :
    ∃ info, (c2, info) ∈ r ∧ info.role = "assistant" ∧ info.session_id = sid ∧
      fails c2 = false ∧ m2 = m := by
  unfold broadcast_to_assistants at h
  rcases List.mem_filterMap.mp h with ⟨a, ha, hav⟩
  rcases List.mem_filter.mp ha with ⟨hmem, hpred⟩
  cases hfa : fails a.1 with
  | true => simp [hfa] at hav
  | false =>
    simp [hfa] at hav
    obtain ⟨h1, h2⟩ := hav
    subst h1
    subst h2
    simp at hpred
    exact ⟨a.2, by simpa using hmem, hpred.1, hpred.2, hfa, rfl⟩

theorem broadcast_to_assistants_mem {r : Registry} {c : Conn} {info : ClientInfo}
    {fails : Conn → Bool} {sid : Option String}
    (hm : (c, info) ∈ r) (hrole : info.role = "assistant") (hsess : info.session_id = sid)
    (hf : fails c = false) (m : OutMessage) :
    (c, m) ∈ broadcast_to_assistants r fails sid m := by
  unfold broadcast_to_assistants
  apply List.mem_filterMap.mpr
  refine ⟨(c, info), List.mem_filter.mpr ⟨hm, by simp [hrole, hsess]⟩, by simp [hf]⟩

theorem mem_broadcast_to_travelers {r : Registry} {fails : Conn → Bool}
    {sid : Option String} {m : OutMessage} {c2 : Conn} {m2 : OutMessage}
    (h : (c2, m2) ∈ broadcast_to_travelers r fails sid m) :
    ∃ info, (c2, info) ∈ r ∧ info.role = "traveler" ∧ info.session_id = sid ∧
      fails c2 = false ∧ m2 = m := by
  unfold broadcast_to_travelers at h
  rcases List.mem_filterMap.mp h with ⟨a, ha, hav⟩
  rcases List.mem_filter.mp ha with ⟨hmem, hpred⟩
  cases hfa : fails a.1 with
  | true => simp [hfa] at hav
  | false =>
    simp [hfa] at hav
    obtain ⟨h1, h2⟩ := hav
    subst h1
    subst h2
    simp at hpred
    exact ⟨a.2, by simpa using hmem, hpred.1, hpred.2, hfa, rfl⟩

theorem broadcast_to_travelers_mem {r : Registry} {c : Conn} {info : ClientInfo}
    {fails : Conn → Bool} {sid : Option String}
    (hm : (c, info) ∈ r) (hrole : info.role = "traveler") (hsess : info.session_id = sid)
    (hf : fails c = false) (m : OutMessage) :
    (c, m) ∈ broadcast_to_travelers r fails sid m := by
  unfold broadcast_to_travelers
  apply List.mem_filterMap.mpr
  refine ⟨(c, info), List.mem_filter.mpr ⟨hm, by simp [hrole, hsess]⟩, by simp [hf]⟩

theorem broadcast_to_travelers_updateEntry (r : Registry) (c : Conn)
    (f : ClientInfo → ClientInfo)
    (hrole : ∀ i, (f i).role = i.role) (hsess : ∀ i, (f i).session_id = i.session_id)
    (fails : Conn → Bool) (sid : Option String) (m : OutMessage) :
    broadcast_to_travelers (updateEntry r c f) fails sid m
      = broadcast_to_travelers r fails sid m := by
  unfold broadcast_to_travelers updateEntry
  rw [List.filter_map, List.filterMap_map]
  have hp : ((fun p : Conn × ClientInfo => p.2.role == "traveler" && p.2.session_id == sid)
        ∘ (fun p : Conn × ClientInfo => if p.1 = c then (p.1, f p.2) else p))
      = (fun p : Conn × ClientInfo => p.2.role == "traveler" && p.2.session_id == sid) := by
    funext p
    by_cases hc : p.1 = c <;> simp [Function.comp, hc, hrole, hsess]
  rw [hp]
  congr 1
  funext p
  by_cases hc : p.1 = c <;> simp [Function.comp, hc]

theorem process_transcription_traveler (tr : Translator) (fails : Conn → Bool)
    (now : String) (r : Registry) (sender : Conn) (si : ClientInfo)
    (text : String) (tl : Option String)
    (hs : r.lookup sender = some si) (hrole : si.role = "traveler") :
    process_message tr fails now r sender (transcriptionMsg text tl)
      = (r, broadcast_to_assistants r fails si.session_id
            (OutMessage.traveler_message text
              (translate_traveler_to_assistant tr text si.language) si.language now)
          ++ (if fails sender then []
              else [(sender, OutMessage.transcription_sent text
                      (translate_traveler_to_assistant tr text si.language) now)])) := by
  unfold process_message
  simp [transcriptionMsg, hs, hrole]

theorem process_transcription_assistant (tr : Translator) (fails : Conn → Bool)
    (now : String) (r : Registry) (sender : Conn) (si : ClientInfo)
    (text : String) (tl : Option String)
    (hs : r.lookup sender = some si) (hrole : si.role = "assistant") :
    process_message tr fails now r sender (transcriptionMsg text tl)
      = (r, broadcast_to_travelers r fails si.session_id
            (OutMessage.assistant_response text
              (translate_assistant_to_traveler tr text (tl.getD "es")) (tl.getD "es") now)
          ++ (if fails sender then []
              else [(sender, OutMessage.response_sent text
                      (translate_assistant_to_traveler tr text (tl.getD "es")) now)])) := by
  unfold process_message
  simp [transcriptionMsg, hs, hrole]

theorem process_transcription_other_role (tr : Translator) (fails : Conn → Bool)
    (now : String) (r : Registry) (sender : Conn) (si : ClientInfo)
    (text : String) (tl : Option String)
    (hs : r.lookup sender = some si)
    (h1 : si.role ≠ "traveler") (h2 : si.role ≠ "assistant") :
    process_message tr fails now r sender (transcriptionMsg text tl) = (r, []) := by
  unfold process_message
  simp [transcriptionMsg, hs, h1, h2]

theorem process_start_recording (tr : Translator) (fails : Conn → Bool)
    (now : String) (r : Registry) (sender : Conn) (si : ClientInfo)
    (lang : Option String) (hs : r.lookup sender = some si) :
    process_message tr fails now r sender (startRecordingMsg lang)
      = (updateEntry r sender
          (fun i => ⟨lang.getD "es", i.translation_enabled, i.role, i.session_id⟩), []) := by
  unfold process_message
  simp [startRecordingMsg, hs]

/-- C1: the claim says a transcription whose relevant language is "en" passes
through unchanged (identity).  In the source the `not in supported_languages`
check precedes the `== "en"` check and "en" is not in
`supported_languages = [es, fr, de, it, pt]`, so both translate helpers
return the "not supported" sentinel for "en" and the identity branch
(`return text  # Already in English`) is unreachable: the code contradicts
its own comment and the spec's stated intent. -/
theorem c1_en_gets_sentinel_not_identity (tr : Translator) :
    translate_traveler_to_assistant tr "Hello" "en" = notSupportedMsg "en" ∧
    translate_assistant_to_traveler tr "Hello" "en" = notSupportedMsg "en" ∧
    notSupportedMsg "en" ≠ "Hello" := by
  refine ⟨?_, ?_, by decide⟩
  · unfold translate_traveler_to_assistant
    rw [if_pos (by decide)]
  · unfold translate_assistant_to_traveler
    rw [if_pos (by decide)]

/-- C5 counterexample: a freshly registered connection has
`session_id = None` (Python `None`), not the string "default"; the claim's
stated entry `{role: traveler, language: es, session_id: "default"}` does not
match the stored entry. -/
theorem c5_counterexample :
    (register_client [] 0).lookup 0 = some ⟨"es", true, "traveler", none⟩ ∧
    (register_client [] 0).lookup 0 ≠ some ⟨"es", true, "traveler", some "default"⟩ := by
  decide

/-- C5 (amended): immediately after registration and before any `set_role`,
the registry entry has role "traveler", language "es", translation enabled,
and `session_id = None` (not "default"; "default" is only the fallback the
dispatcher uses when the entry is absent or `set_role` omits the field). -/
theorem c5_register_defaults (r : Registry) (c : Conn) :
    (register_client r c).lookup c = some ⟨"es", true, "traveler", none⟩ :=
  lookup_dictSet_self r c _

/-- C8: unregistering an absent connection is a no-op that leaves the registry
unchanged (and raises no error: `unregister_client` is total), and after a
connection is unregistered every broadcast to its former (session, role) pair
excludes it. -/
theorem c8_unregister_noop_and_excludes (r : Registry) (c : Conn) (sid : Option String)
    (m : OutMessage) (fails : Conn → Bool) :
    (r.lookup c = none → unregister_client r c = r) ∧
    (∀ c2 m2, (c2, m2) ∈ broadcast_to_assistants (unregister_client r c) fails sid m
      → c2 ≠ c) ∧
    (∀ c2 m2, (c2, m2) ∈ broadcast_to_travelers (unregister_client r c) fails sid m
      → c2 ≠ c) := by
  refine ⟨?_, ?_, ?_⟩
  · intro h
    unfold unregister_client
    rw [h]
    simp
  · intro c2 m2 hmem
    rcases mem_broadcast_to_assistants hmem with ⟨info, hm, _, _, _, _⟩
    exact mem_unregister_ne r c (c2, info) hm
  · intro c2 m2 hmem
    rcases mem_broadcast_to_travelers hmem with ⟨info, hm, _, _, _, _⟩
    exact mem_unregister_ne r c (c2, info) hm

/-- C8 witness: double-unregister of connection 1 on a registry holding only
connection 0 leaves the registry unchanged, and after unregistering
connection 1 from the two-connection registry a broadcast to its former
(session "S", assistant) pair does not reach it. -/
theorem c8_witness :
    unregister_client [(0, travInfo)] 1 = [(0, travInfo)] ∧
    ¬((1, demoMsg) ∈ broadcast_to_assistants (unregister_client demoRegistry2 1)
        (fun _ => false) (some "S") demoMsg) := by
  constructor
  · exact (c8_unregister_noop_and_excludes [(0, travInfo)] 1 (some "S") demoMsg
      (fun _ => false)).1 (by decide)
  · intro h
    exact (c8_unregister_noop_and_excludes demoRegistry2 1 (some "S") demoMsg
      (fun _ => false)).2.1 1 demoMsg h rfl

/-- C9: `start_recording` from a registered sender changes only the sender's
language field: role, session id and translation_enabled keep their prior
values, every other connection's entry is untouched, and no message is sent
to anyone. -/
theorem c9_start_recording_frame (tr : Translator) (fails : Conn → Bool) (now : String)
    (r : Registry) (sender : Conn) (si : ClientInfo) (lang : Option String)
    (hs : r.lookup sender = some si) :
    (process_message tr fails now r sender (startRecordingMsg lang)).2 = [] ∧
    (process_message tr fails now r sender (startRecordingMsg lang)).1.lookup sender
      = some ⟨lang.getD "es", si.translation_enabled, si.role, si.session_id⟩ ∧
    ∀ c2, c2 ≠ sender →
      (process_message tr fails now r sender (startRecordingMsg lang)).1.lookup c2
        = r.lookup c2 := by
  rw [process_start_recording tr fails now r sender si lang hs]
  refine ⟨rfl, ?_, ?_⟩
  · rw [lookup_updateEntry_self, hs]
    rfl
  · intro c2 hne
    exact lookup_updateEntry_ne r sender c2
      (fun i => ⟨lang.getD "es", i.translation_enabled, i.role, i.session_id⟩) hne

/-- C9 witness: on the traveler/assistant registry, `start_recording{language:"fr"}`
from connection 0 sends nothing, sets only connection 0's language to "fr"
keeping its role/session/flag, and leaves connection 1's entry unchanged. -/
theorem c9_witness :
    (process_message mockTranslator (fun _ => false) "09:00:00" demoRegistry2 0
        (startRecordingMsg (some "fr"))).2 = [] ∧
    (process_message mockTranslator (fun _ => false) "09:00:00" demoRegistry2 0
        (startRecordingMsg (some "fr"))).1.lookup 0
      = some ⟨(some "fr").getD "es", travInfo.translation_enabled, travInfo.role,
          travInfo.session_id⟩ ∧
    (process_message mockTranslator (fun _ => false) "09:00:00" demoRegistry2 0
        (startRecordingMsg (some "fr"))).1.lookup 1 = demoRegistry2.lookup 1 := by
  refine ⟨?_, ?_, ?_⟩
  · exact (c9_start_recording_frame mockTranslator (fun _ => false) "09:00:00" demoRegistry2
      0 travInfo (some "fr") (by decide)).1
  · exact (c9_start_recording_frame mockTranslator (fun _ => false) "09:00:00" demoRegistry2
      0 travInfo (some "fr") (by decide)).2.1
  · exact (c9_start_recording_frame mockTranslator (fun _ => false) "09:00:00" demoRegistry2
      0 travInfo (some "fr") (by decide)).2.2 1 (by decide)

/-- C10: a transcription from a sender whose stored role is neither "traveler"
nor "assistant" (reachable because `set_role` stores the client-supplied role
string verbatim) produces no broadcast, no acknowledgement (the handler's
`response` variable is never assigned, so the send step raises and is
swallowed), and leaves the registry unchanged. -/
theorem c10_transcription_unknown_role (tr : Translator) (fails : Conn → Bool)
    (now : String) (r : Registry) (sender : Conn) (si : ClientInfo)
    (text : String) (tl : Option String)
    (hs : r.lookup sender = some si)
    (h1 : si.role ≠ "traveler") (h2 : si.role ≠ "assistant") :
    process_message tr fails now r sender (transcriptionMsg text tl) = (r, []) :=
  process_transcription_other_role tr fails now r sender si text tl hs h1 h2

/-- C10 witness: after `set_role{role:"moderator"}` the stored role is
"moderator"; a transcription from that connection returns the registry
unchanged with no sends. -/
theorem c10_witness :
    process_message mockTranslator (fun _ => false) "10:00:00" moderatorRegistry 0
        (transcriptionMsg "Hello" none) = (moderatorRegistry, []) :=
  c10_transcription_unknown_role mockTranslator (fun _ => false) "10:00:00"
    moderatorRegistry 0 ⟨"en", true, "moderator", some "S"⟩ "Hello" none
    (by decide) (by decide) (by decide)

/-- C2: with a registered traveler sender and an assistant connection sharing
its session id, a transcription from the traveler broadcasts a
`traveler_message` with a non-empty translated field to the assistant
(non-empty provided the external translation oracle returns a non-empty
string; the "not supported" sentinel is itself non-empty), and acknowledges
the sender with a `transcription_sent` carrying the same translated value. -/
theorem c2_traveler_broadcast_and_ack (tr : Translator) (now text : String)
    (r : Registry) (sender asst : Conn) (si ai : ClientInfo) (tl : Option String)
    (hs : r.lookup sender = some si) (hrole : si.role = "traveler")
    (ha : (asst, ai) ∈ r) (harole : ai.role = "assistant")
    (hsess : ai.session_id = si.session_id)
    (htr : tr.translate_to_english text si.language ≠ "") :
    translate_traveler_to_assistant tr text si.language ≠ "" ∧
    (asst, OutMessage.traveler_message text
        (translate_traveler_to_assistant tr text si.language) si.language now)
      ∈ (process_message tr (fun _ => false) now r sender (transcriptionMsg text tl)).2 ∧
    (sender, OutMessage.transcription_sent text
        (translate_traveler_to_assistant tr text si.language) now)
      ∈ (process_message tr (fun _ => false) now r sender (transcriptionMsg text tl)).2 := by
  rw [process_transcription_traveler tr (fun _ => false) now r sender si text tl hs hrole]
  refine ⟨translate_traveler_ne_empty tr text si.language htr, ?_, ?_⟩
  · exact List.mem_append_left _ (broadcast_to_assistants_mem ha harole hsess rfl _)
  · apply List.mem_append_right
    simp

/-- C2 witness: traveler 0 (language "es", session "S") sends "Hola" with the
mock translator; assistant 1 receives the broadcast and 0 receives the
acknowledgement with the same translated value. -/
theorem c2_witness :
    translate_traveler_to_assistant mockTranslator "Hola" travInfo.language ≠ "" ∧
    (1, OutMessage.traveler_message "Hola"
        (translate_traveler_to_assistant mockTranslator "Hola" travInfo.language)
        travInfo.language "12:00:00")
      ∈ (process_message mockTranslator (fun _ => false) "12:00:00" demoRegistry2 0
          (transcriptionMsg "Hola" none)).2 ∧
    (0, OutMessage.transcription_sent "Hola"
        (translate_traveler_to_assistant mockTranslator "Hola" travInfo.language)
        "12:00:00")
      ∈ (process_message mockTranslator (fun _ => false) "12:00:00" demoRegistry2 0
          (transcriptionMsg "Hola" none)).2 :=
  c2_traveler_broadcast_and_ack mockTranslator "12:00:00" "Hola" demoRegistry2 0 1
    travInfo asstInfo none (by decide) (by decide) (by decide) (by decide) (by decide)
    (by decide)

/-- C4: for a language outside the supported set [es, fr, de, it, pt] the
translated value is the "not supported" sentinel listing the supported
languages, in both directions; the result does not depend on the translation
oracle (the Translator is never invoked); and a transcription from an
assistant with such a `traveler_language` still broadcasts to the travelers
and acknowledges the sender, with the sentinel in place of a translation. -/
theorem c4_unsupported_language_sentinel (tr : Translator) (now text lang : String)
    (r : Registry) (sender : Conn) (si : ClientInfo)
    (hlang : lang ∉ supported_languages)
    (hs : r.lookup sender = some si) (hrole : si.role = "assistant") :
    translate_traveler_to_assistant tr text lang = notSupportedMsg lang ∧
    translate_assistant_to_traveler tr text lang = notSupportedMsg lang ∧
    notSupportedMsg lang
      = "Language \x27" ++ lang ++ "\x27 not supported offline. Supported: " ++
          "[\x27es\x27, \x27fr\x27, \x27de\x27, \x27it\x27, \x27pt\x27]" ∧
    (process_message tr (fun _ => false) now r sender (transcriptionMsg text (some lang))).2
      = broadcast_to_travelers r (fun _ => false) si.session_id
          (OutMessage.assistant_response text (notSupportedMsg lang) lang now)
        ++ [(sender, OutMessage.response_sent text (notSupportedMsg lang) now)] := by
  have hsent : translate_assistant_to_traveler tr text lang = notSupportedMsg lang := by
    unfold translate_assistant_to_traveler
    rw [if_pos hlang]
  refine ⟨?_, hsent, ?_, ?_⟩
  · unfold translate_traveler_to_assistant
    rw [if_pos hlang]
  · have hrepr : pyListRepr supported_languages
        = "[\x27es\x27, \x27fr\x27, \x27de\x27, \x27it\x27, \x27pt\x27]" := by decide
    unfold notSupportedMsg
    rw [hrepr]
  · rw [process_transcription_assistant tr (fun _ => false) now r sender si text
      (some lang) hs hrole]
    simp [hsent]

/-- C4 witness: assistant 1 sends a transcription with unsupported
`traveler_language = "xx"`: the translated value is the sentinel string and
the broadcast/acknowledgement are still produced. -/
theorem c4_witness :
    translate_traveler_to_assistant mockTranslator "Hi" "xx" = notSupportedMsg "xx" ∧
    translate_assistant_to_traveler mockTranslator "Hi" "xx" = notSupportedMsg "xx" ∧
    notSupportedMsg "xx"
      = "Language \x27" ++ "xx" ++ "\x27 not supported offline. Supported: " ++
          "[\x27es\x27, \x27fr\x27, \x27de\x27, \x27it\x27, \x27pt\x27]" ∧
    (process_message mockTranslator (fun _ => false) "11:00:00" demoRegistry2 1
        (transcriptionMsg "Hi" (some "xx"))).2
      = broadcast_to_travelers demoRegistry2 (fun _ => false) asstInfo.session_id
          (OutMessage.assistant_response "Hi" (notSupportedMsg "xx") "xx" "11:00:00")
        ++ [(1, OutMessage.response_sent "Hi" (notSupportedMsg "xx") "11:00:00")] :=
  c4_unsupported_language_sentinel mockTranslator "11:00:00" "Hi" "xx" demoRegistry2 1
    asstInfo (by decide) (by decide) (by decide)

/-- C7: broadcast sends are isolated per recipient: whatever other
connections' sends do (the `fails` predicate is arbitrary), a matching
assistant whose own send does not fail receives the broadcast, and the
sender's acknowledgement is still sent whenever the sender's own send does
not fail. -/
theorem c7_send_failure_isolated (tr : Translator) (now text : String)
    (fails : Conn → Bool) (r : Registry) (sender c : Conn) (si info : ClientInfo)
    (tl : Option String)
    (hs : r.lookup sender = some si) (hrole : si.role = "traveler")
    (hc : (c, info) ∈ r) (hcr : info.role = "assistant")
    (hcs : info.session_id = si.session_id) (hcf : fails c = false) :
    (c, OutMessage.traveler_message text
        (translate_traveler_to_assistant tr text si.language) si.language now)
      ∈ (process_message tr fails now r sender (transcriptionMsg text tl)).2 ∧
    (fails sender = false →
      (sender, OutMessage.transcription_sent text
          (translate_traveler_to_assistant tr text si.language) now)
        ∈ (process_message tr fails now r sender (transcriptionMsg text tl)).2) := by
  rw [process_transcription_traveler tr fails now r sender si text tl hs hrole]
  constructor
  · exact List.mem_append_left _ (broadcast_to_assistants_mem hc hcr hcs hcf _)
  · intro hsf
    apply List.mem_append_right
    simp [hsf]

/-- C7 witness: among assistants 1 and 2 in session "S", the send to 1 fails;
assistant 2 still receives the broadcast and traveler 0 still receives the
acknowledgement. -/
theorem c7_witness :
    (2, OutMessage.traveler_message "Hola"
        (translate_traveler_to_assistant mockTranslator "Hola" travInfo.language)
        travInfo.language "12:00:00")
      ∈ (process_message mockTranslator (fun c => c == 1) "12:00:00" demoRegistry3 0
          (transcriptionMsg "Hola" none)).2 ∧
    (0, OutMessage.transcription_sent "Hola"
        (translate_traveler_to_assistant mockTranslator "Hola" travInfo.language)
        "12:00:00")
      ∈ (process_message mockTranslator (fun c => c == 1) "12:00:00" demoRegistry3 0
          (transcriptionMsg "Hola" none)).2 := by
  have h := c7_send_failure_isolated mockTranslator "12:00:00" "Hola" (fun c => c == 1)
    demoRegistry3 0 2 travInfo asstInfo none (by decide) (by decide) (by decide)
    (by decide) (by decide) (by decide)
  exact ⟨h.1, h.2 (by decide)⟩

/-- C3: the connections receiving the broadcast triggered by a transcription
are exactly the registered entries whose session id equals the sender's
stored session id and whose role equals the target role — "assistant" when
the sender is a traveler, "traveler" when the sender is an assistant; every
matching connection receives it. -/
theorem c3_recipients_exact (tr : Translator) (now text : String)
    (r : Registry) (sender c : Conn) (si : ClientInfo) (tl : Option String)
    (hs : r.lookup sender = some si) :
    (si.role = "traveler" →
      ((c, OutMessage.traveler_message text
          (translate_traveler_to_assistant tr text si.language) si.language now)
        ∈ (process_message tr (fun _ => false) now r sender (transcriptionMsg text tl)).2
       ↔ ∃ info, (c, info) ∈ r ∧ info.role = "assistant"
           ∧ info.session_id = si.session_id)) ∧
    (si.role = "assistant" →
      ((c, OutMessage.assistant_response text
          (translate_assistant_to_traveler tr text (tl.getD "es")) (tl.getD "es") now)
        ∈ (process_message tr (fun _ => false) now r sender (transcriptionMsg text tl)).2
       ↔ ∃ info, (c, info) ∈ r ∧ info.role = "traveler"
           ∧ info.session_id = si.session_id)) := by
  constructor
  · intro hrole
    rw [process_transcription_traveler tr (fun _ => false) now r sender si text tl hs hrole]
    constructor
    · intro hmem
      rcases List.mem_append.mp hmem with hmem2 | hmem2
      · rcases mem_broadcast_to_assistants hmem2 with ⟨info, hm, hr2, hsid, _, _⟩
        exact ⟨info, hm, hr2, hsid⟩
      · simp at hmem2
    · rintro ⟨info, hm, hr2, hsid⟩
      exact List.mem_append_left _ (broadcast_to_assistants_mem hm hr2 hsid rfl _)
  · intro hrole
    rw [process_transcription_assistant tr (fun _ => false) now r sender si text tl hs hrole]
    constructor
    · intro hmem
      rcases List.mem_append.mp hmem with hmem2 | hmem2
      · rcases mem_broadcast_to_travelers hmem2 with ⟨info, hm, hr2, hsid, _, _⟩
        exact ⟨info, hm, hr2, hsid⟩
      · simp at hmem2
    · rintro ⟨info, hm, hr2, hsid⟩
      exact List.mem_append_left _ (broadcast_to_travelers_mem hm hr2 hsid rfl _)

/-- C3 witness: in the three-connection registry (traveler 0, assistants 1
and 2, all in session "S"), both assistants receive the broadcast of
traveler 0's transcription. -/
theorem c3_witness :
    (1, OutMessage.traveler_message "Hola"
        (translate_traveler_to_assistant mockTranslator "Hola" travInfo.language)
        travInfo.language "12:00:00")
      ∈ (process_message mockTranslator (fun _ => false) "12:00:00" demoRegistry3 0
          (transcriptionMsg "Hola" none)).2 ∧
    (2, OutMessage.traveler_message "Hola"
        (translate_traveler_to_assistant mockTranslator "Hola" travInfo.language)
        travInfo.language "12:00:00")
      ∈ (process_message mockTranslator (fun _ => false) "12:00:00" demoRegistry3 0
          (transcriptionMsg "Hola" none)).2 := by
  constructor
  · exact ((c3_recipients_exact mockTranslator "12:00:00" "Hola" demoRegistry3 0 1
      travInfo none (by decide)).1 (by decide)).mpr ⟨asstInfo, by decide, by decide, by decide⟩
  · exact ((c3_recipients_exact mockTranslator "12:00:00" "Hola" demoRegistry3 0 2
      travInfo none (by decide)).1 (by decide)).mpr ⟨asstInfo, by decide, by decide, by decide⟩

/-- C6: in the assistant transcription branch the target language comes from
the message's `traveler_language` field (defaulting to "es" when absent) and
never from the assistant's stored language: overwriting the assistant
sender's stored language with an arbitrary value changes neither the
broadcast nor the acknowledgement, and omitting `traveler_language` behaves
exactly like sending `traveler_language = "es"`. -/
theorem c6_assistant_stored_language_irrelevant (tr : Translator) (fails : Conn → Bool)
    (now text : String) (r : Registry) (sender : Conn) (si : ClientInfo)
    (l : String) (tl : Option String)
    (hs : r.lookup sender = some si) (hrole : si.role = "assistant") :
    (process_message tr fails now
        (updateEntry r sender (fun i => ⟨l, i.translation_enabled, i.role, i.session_id⟩))
        sender (transcriptionMsg text tl)).2
      = (process_message tr fails now r sender (transcriptionMsg text tl)).2 ∧
    (process_message tr fails now r sender (transcriptionMsg text none)).2
      = (process_message tr fails now r sender (transcriptionMsg text (some "es"))).2 := by
  have hs2 : (updateEntry r sender
        (fun i => ⟨l, i.translation_enabled, i.role, i.session_id⟩)).lookup sender
      = some ⟨l, si.translation_enabled, si.role, si.session_id⟩ := by
    rw [lookup_updateEntry_self, hs]
    rfl
  constructor
  · rw [process_transcription_assistant tr fails now _ sender _ text tl hs2 hrole,
      process_transcription_assistant tr fails now r sender si text tl hs hrole]
    rw [broadcast_to_travelers_updateEntry r sender
      (fun i => ⟨l, i.translation_enabled, i.role, i.session_id⟩)
      (fun _ => rfl) (fun _ => rfl) fails si.session_id
      (OutMessage.assistant_response text
        (translate_assistant_to_traveler tr text (tl.getD "es")) (tl.getD "es") now)]
  · rw [process_transcription_assistant tr fails now r sender si text none hs hrole,
      process_transcription_assistant tr fails now r sender si text (some "es") hs hrole]
    rfl

/-- C6 witness: overwriting assistant 1's stored language with "de" does not
change the sends produced by its transcription, and a transcription without
`traveler_language` equals one with `traveler_language = "es"`. -/
theorem c6_witness :
    (process_message mockTranslator (fun _ => false) "12:00:00"
        (updateEntry demoRegistry2 1
          (fun i => ⟨"de", i.translation_enabled, i.role, i.session_id⟩))
        1 (transcriptionMsg "Hello" (some "fr"))).2
      = (process_message mockTranslator (fun _ => false) "12:00:00" demoRegistry2 1
          (transcriptionMsg "Hello" (some "fr"))).2 ∧
    (process_message mockTranslator (fun _ => false) "12:00:00" demoRegistry2 1
        (transcriptionMsg "Hello" none)).2
      = (process_message mockTranslator (fun _ => false) "12:00:00" demoRegistry2 1
          (transcriptionMsg "Hello" (some "es"))).2 :=
  c6_assistant_stored_language_irrelevant mockTranslator (fun _ => false) "12:00:00"
    "Hello" demoRegistry2 1 asstInfo "de" (some "fr") (by decide) (by decide)
